import Mathlib

/-!
A shallow embedding of the `mcp_crowdstrike` repository's core
(session provider, tool registry, response envelope, and the hosts and
detections tool modules) together with proofs of the specification claims.

Conventions of the embedding:
* Python dicts are association lists with string keys; JSON-like Python
  values are the inductive `Value` below.
* Python exceptions are the inductive `PyErr`; fallible operations return
  `Except PyErr _` plus, for stateful provider code, an updated
  `ProviderState` and a list of observable remote-call events.
* Wall-clock time (`time.time()`, token expiry) is modelled with integers;
  the source only ever compares times, so the float representation is
  irrelevant to the claims.
* Remote services (the OAuth2 token endpoint and the Falcon SDK business
  endpoints) are oracles supplied as arguments: the auth endpoint as an
  `Option AuthResult` (the response dict of `oauth2.token()`, `none`
  standing for a falsy/empty response) and the business endpoints as a
  `RemoteApi` record of functions returning the response dict, each of
  which is a dict with keys `status_code` and `body` as FalconPy produces.
-/

/-- A JSON-like Python value (strings, ints, bools, None, lists, dicts). -/
inductive Value where
  | str : String → Value
  | int : Int → Value
  | bool : Bool → Value
  | null : Value
  | list : List Value → Value
  | dict : List (String × Value) → Value

/-- Association lists standing for Python dicts with string keys. -/
abbrev Dict := List (String × Value)

/-- A response envelope, i.e. the dict returned by a tool invocation. -/
abbrev Env := Dict

/-- First-match association-list lookup (Python dict keys are unique). -/
def alookup {α : Type} : List (String × α) → String → Option α
  | [], _ => Option.none
  | (k, v) :: rest, key => if k = key then some v else alookup rest key

/-- Python `d.get(k)` (missing key gives `None`). -/
def dget (d : Dict) (k : String) : Value := (alookup d k).getD Value.null

/-- Python `d.get(k, default)`. -/
def dgetD (d : Dict) (k : String) (dflt : Value) : Value := (alookup d k).getD dflt

/-- Whether an envelope dict has a given key. -/
def hasKey (d : Dict) (k : String) : Bool := (alookup d k).isSome

/-- Python `.get(k, default)` on a value expected to be a dict (the
response bodies handled by the tool modules are always dicts; a non-dict
receiver is mapped to the default). -/
def Value.getD : Value → String → Value → Value
  | .dict d, k, dflt => dgetD d k dflt
  | _, _, dflt => dflt

/-- Python truthiness of a value. -/
def Value.truthy : Value → Bool
  | .str s => s ≠ ""
  | .int n => n ≠ 0
  | .bool b => b
  | .null => false
  | .list l => !l.isEmpty
  | .dict d => !d.isEmpty

/-- A single-quote character, used in Python error message formatting. -/
def sqt : String := "\x27"

/-- Python exceptions raised by the embedded code. -/
inductive PyErr where
  | valueError : String → PyErr
  | keyError : String → PyErr
  | connectionError : String → PyErr
  | runtimeError : String → PyErr
  | typeError : String → PyErr
deriving DecidableEq, Repr

/-- Python `str(e)` for the exceptions above (`KeyError` renders its key
quoted, the others render their message). -/
def PyErr.pyStr : PyErr → String
  | .valueError m => m
  | .keyError k => sqt ++ k ++ sqt
  | .connectionError m => m
  | .runtimeError m => m
  | .typeError m => m

/-- Python `repr` of a list of strings, as interpolated into f-strings. -/
def pyStrListStr (l : List String) : String :=
  "[" ++ ", ".intercalate (l.map (fun s => sqt ++ s ++ sqt)) ++ "]"

mutual

/-- Python `repr()` of a value. -/
def Value.pyRepr : Value → String
  | .str s => sqt ++ s ++ sqt
  | .int n => toString n
  | .bool b => cond b "True" "False"
  | .null => "None"
  | .list l => "[" ++ pyReprList l ++ "]"
  | .dict d => "\x7b" ++ pyReprDict d ++ "\x7d"

/-- `repr` of the elements of a Python list, comma separated. -/
def pyReprList : List Value → String
  | [] => ""
  | [v] => Value.pyRepr v
  | v :: vs => Value.pyRepr v ++ ", " ++ pyReprList vs

/-- `repr` of the items of a Python dict, comma separated. -/
def pyReprDict : List (String × Value) → String
  | [] => ""
  | [(k, v)] => sqt ++ k ++ sqt ++ ": " ++ Value.pyRepr v
  | (k, v) :: rest => sqt ++ k ++ sqt ++ ": " ++ Value.pyRepr v ++ ", " ++ pyReprDict rest

end

/-- Python `str()` of a value (strings render bare, containers via `repr`). -/
def Value.pyStr : Value → String
  | .str s => s
  | v => Value.pyRepr v

/-- Python `len()`; raises `TypeError` on unsized values. -/
def Value.pyLen : Value → Except PyErr Nat
  | .str s => .ok s.length
  | .list l => .ok l.length
  | .dict d => .ok d.length
  | _ => .error (.typeError "object has no len()")

/-! ## `utils/responses.py` -/

/-- `success_response(data, metadata=None)`. -/
def success_response (data : Value) (metadata : Option Value) : Env :=
  [("success", Value.bool true), ("data", data)] ++
    (match metadata with
     | some m => [("metadata", m)]
     | Option.none => [])

/-- `error_response(error, tool_name=None, status_code=None, details=None)`. -/
def error_response (error : Value) (tool_name : Option String)
    (status_code : Option Int) (details : Option Value) : Env :=
  [("success", Value.bool false), ("error", error)] ++
    (match tool_name with
     | some t => [("tool", Value.str t)]
     | Option.none => []) ++
    (match status_code with
     | some c => [("status_code", Value.int c)]
     | Option.none => []) ++
    (match details with
     | some d => [("details", d)]
     | Option.none => [])

/-- `validation_error_response(field, message, tool_name=None)`. -/
def validation_error_response (field : String) (message : String)
    (tool_name : Option String) : Env :=
  error_response (Value.str "Validation error") tool_name Option.none
    (some (Value.dict [("field", Value.str field), ("message", Value.str message)]))

/-- `api_error_response(api_name, status_code, message, tool_name=None)`. -/
def api_error_response (api_name : String) (status_code : Int) (message : String)
    (tool_name : Option String) : Env :=
  error_response (Value.str (api_name ++ " API error")) tool_name (some status_code)
    (some (Value.dict [("api", Value.str api_name), ("message", Value.str message)]))

/-! ## `providers/crowdstrike.py`: the session provider -/

/-- The slice of `config.Settings` the provider reads: credentials and
base URL (`get_falcon_credentials()` and `falcon_base_url`). -/
structure Settings where
  falcon_client_id : String
  falcon_client_secret : String
  falcon_base_url : String
deriving DecidableEq, Repr

/-- The `falconpy.OAuth2` client object, identified by its constructor
arguments. -/
structure OAuth2 where
  client_id : String
  client_secret : String
  base_url : String
deriving DecidableEq, Repr

/-- A FalconPy service collection object (`Hosts`, `Detects` or
`Incidents`), identified by its constructor arguments. -/
structure ServiceHandle where
  access_token : String
  base_url : String
deriving DecidableEq, Repr

/-- The response dict of `oauth2.token()`: top-level `status_code` plus the
`body` fields the provider reads (`expires_in`, `access_token`, `errors`).
A missing field is `Option.none`. -/
structure AuthResult where
  status_code : Option Int
  expires_in : Option Int
  access_token : Option String
  errors : Option (List String)
deriving DecidableEq, Repr

/-- Observable provider-level remote calls: the token revocation issued by
`shutdown()`, the auth exchange issued by `initialize()`, and the business
call a tool handler issues through a service collection. -/
inductive Event where
  | revokeCall : Event
  | authCall : Event
  | businessCall : String → Event
deriving DecidableEq, Repr

/-- The mutable fields of `CrowdStrikeProvider` (`__init__`). -/
structure ProviderState where
  oauth2 : Option OAuth2
  hosts : Option ServiceHandle
  detects : Option ServiceHandle
  incidents : Option ServiceHandle
  token_expiry : Int
  initialized : Bool
deriving DecidableEq, Repr

/-- The provider state built by `CrowdStrikeProvider.__init__`. -/
def freshProvider : ProviderState :=
  { oauth2 := Option.none, hosts := Option.none, detects := Option.none,
    incidents := Option.none, token_expiry := 0, initialized := false }

/-- The `OAuth2(...)` client `initialize()` constructs from the settings. -/
def mkOAuth2 (settings : Settings) : OAuth2 :=
  { client_id := settings.falcon_client_id,
    client_secret := settings.falcon_client_secret,
    base_url := settings.falcon_base_url }

/-- `CrowdStrikeProvider.initialize(self)`.

`now` is `time.time()` and `auth` is the response of `self._oauth2.token()`
(`Option.none` standing for a falsy response).  Returns the Python result
(`Except`), the provider state after the call, and the remote calls made.
Inside the `try` block a non-201 status raises `ValueError`, a missing
`access_token` key raises `KeyError`; the `except` block wraps any
exception into `ConnectionError(f"Failed to initialize provider: {e}")`
without undoing the assignments already performed. -/
def initProvider (settings : Settings) (now : Int) (auth : Option AuthResult)
    (s : ProviderState) : Except PyErr Unit × ProviderState × List Event :=
  if s.initialized then
    -- logger.warning("Provider already initialized"); return
    (.ok (), s, [])
  else
    -- self._oauth2 = OAuth2(client_id, client_secret, base_url)
    let s1 := { s with oauth2 := some (mkOAuth2 settings) }
    -- auth_result = self._oauth2.token()
    match auth with
    | Option.none =>
        -- `not auth_result` is true: ValueError with the default error list
        (.error (.connectionError ("Failed to initialize provider: Authentication failed: "
            ++ pyStrListStr ["Unknown authentication error"])), s1, [Event.authCall])
    | some a =>
        if a.status_code ≠ some 201 then
          let errs := a.errors.getD ["Unknown authentication error"]
          (.error (.connectionError ("Failed to initialize provider: Authentication failed: "
              ++ pyStrListStr errs)), s1, [Event.authCall])
        else
          -- expires_in = auth_result.get("body", {}).get("expires_in", 1800)
          -- self._token_expiry = time.time() + expires_in - 300
          let s2 := { s1 with token_expiry := now + a.expires_in.getD 1800 - 300 }
          -- token = auth_result["body"]["access_token"]
          match a.access_token with
          | Option.none =>
              (.error (.connectionError ("Failed to initialize provider: "
                  ++ sqt ++ "access_token" ++ sqt)), s2, [Event.authCall])
          | some token =>
              let handle : ServiceHandle :=
                { access_token := token, base_url := settings.falcon_base_url }
              (.ok (),
               { s2 with hosts := some handle, detects := some handle,
                         incidents := some handle, initialized := true },
               [Event.authCall])

/-- `CrowdStrikeProvider.shutdown(self)`: best-effort token revocation
(failures are caught and only logged), then all session fields cleared.
Never raises. -/
def shutdown (s : ProviderState) : Except PyErr Unit × ProviderState × List Event :=
  let ev : List Event :=
    match s.oauth2 with
    | some _ => [Event.revokeCall]
    | Option.none => []
  (.ok (),
   { oauth2 := Option.none, hosts := Option.none, detects := Option.none,
     incidents := Option.none, token_expiry := s.token_expiry, initialized := false },
   ev)

/-- `CrowdStrikeProvider.refresh_token_if_needed(self)`: if
`time.time() >= self._token_expiry` then `await self.shutdown()` followed
by `await self.initialize()`; otherwise nothing. -/
def refresh_token_if_needed (settings : Settings) (now : Int) (auth : Option AuthResult)
    (s : ProviderState) : Except PyErr Unit × ProviderState × List Event :=
  if s.token_expiry ≤ now then
    let sd := shutdown s
    let ini := initProvider settings now auth sd.2.1
    (ini.1, ini.2.1, sd.2.2 ++ ini.2.2)
  else
    (.ok (), s, [])

/-- The `CrowdStrikeProvider.hosts` property: raises
`RuntimeError("Provider not initialized")` unless initialized with a live
handle. -/
def ProviderState.hostsHandle (s : ProviderState) : Except PyErr ServiceHandle :=
  match s.hosts with
  | some h => if s.initialized then .ok h else .error (.runtimeError "Provider not initialized")
  | Option.none => .error (.runtimeError "Provider not initialized")

/-- The `CrowdStrikeProvider.detects` property. -/
def ProviderState.detectsHandle (s : ProviderState) : Except PyErr ServiceHandle :=
  match s.detects with
  | some h => if s.initialized then .ok h else .error (.runtimeError "Provider not initialized")
  | Option.none => .error (.runtimeError "Provider not initialized")

/-- `CrowdStrikeProvider.get_client(self)`: raises `RuntimeError` unless
initialized, otherwise returns the three service collections. -/
def get_client (s : ProviderState) :
    Except PyErr (Option ServiceHandle × Option ServiceHandle × Option ServiceHandle) :=
  if s.initialized then .ok (s.hosts, s.detects, s.incidents)
  else .error (.runtimeError "Provider not initialized. Call initialize() first.")

/-! ## `tools/registry.py`: tool descriptors and the registry -/

/-- `registry.Tool`: name, description, input schema and handler.  The
handler is the async callable invoked as `tool.handler(name, arguments)`;
it may raise (`Except.error`) or return an envelope. -/
structure Tool where
  name : String
  description : String
  input_schema : Value
  handler : String → Dict → Except PyErr Env

/-- `Tool.to_mcp_format(self)`. -/
def Tool.to_mcp_format (t : Tool) : Env :=
  [("name", Value.str t.name), ("description", Value.str t.description),
   ("inputSchema", t.input_schema)]

/-- `registry.ToolRegistry`: the provider reference taken by `__init__`
plus the insertion-ordered `_tools` dict. -/
structure ToolRegistry where
  provider : ProviderState
  tools : List (String × Tool)

/-- `ToolRegistry.get_tool(self, name)`: `self._tools.get(name)`. -/
def ToolRegistry.get_tool (r : ToolRegistry) (name : String) : Option Tool :=
  alookup r.tools name

/-- `ToolRegistry.list_tool_names(self)`. -/
def ToolRegistry.list_tool_names (r : ToolRegistry) : List String :=
  r.tools.map (fun kv => kv.1)

/-- `ToolRegistry.get_all_tools(self)`. -/
def ToolRegistry.get_all_tools (r : ToolRegistry) : List Env :=
  r.tools.map (fun kv => kv.2.to_mcp_format)

/-- `ToolRegistry.register_tool(self, tool)`: raises
`ValueError(f"Tool '{tool.name}' is already registered")` when the name is
present (leaving `_tools` untouched), otherwise inserts the tool. -/
def ToolRegistry.register_tool (r : ToolRegistry) (tool : Tool) :
    Except PyErr Unit × ToolRegistry :=
  if (r.get_tool tool.name).isSome then
    (.error (.valueError ("Tool " ++ sqt ++ tool.name ++ sqt ++ " is already registered")), r)
  else
    (.ok (), { r with tools := r.tools ++ [(tool.name, tool)] })

/-- The loop body of `ToolRegistry.register_module`: for each tool in
order, overwrite its handler with the closure
`lambda name, args, func=execute_func: func(self._provider, name, args)`
and call `register_tool`; a raised `ValueError` propagates immediately,
keeping the registrations already performed. -/
def registerLoop (f : ProviderState → String → Dict → Except PyErr Env) :
    ToolRegistry → List Tool → Except PyErr Unit × ToolRegistry
  | r, [] => (.ok (), r)
  | r, tool :: rest =>
    let bound := { tool with handler := fun name args => f r.provider name args }
    match r.register_tool bound with
    | (.error e, r1) => (.error e, r1)
    | (.ok _, r1) => registerLoop f r1 rest

/-- `ToolRegistry.register_module(self, get_tools_func, execute_func)`. -/
def ToolRegistry.register_module (r : ToolRegistry) (get_tools_func : Unit → List Tool)
    (execute_func : ProviderState → String → Dict → Except PyErr Env) :
    Except PyErr Unit × ToolRegistry :=
  registerLoop execute_func r (get_tools_func ())

/-- `ToolRegistry.execute_tool(self, name, arguments)`: an absent name
returns the 404 envelope; otherwise the handler runs inside the
`try`/`except` boundary, any exception being converted to the 500
envelope `Tool execution failed: <str(e)>` and a returned value passed
through unchanged.  Never raises. -/
def ToolRegistry.execute_tool (r : ToolRegistry) (name : String) (arguments : Dict) : Env :=
  match r.get_tool name with
  | Option.none =>
      error_response (Value.str ("Tool " ++ sqt ++ name ++ sqt ++ " not found"))
        (some name) (some 404) Option.none
  | some tool =>
      match tool.handler name arguments with
      | .ok result => result
      | .error e =>
          error_response (Value.str ("Tool execution failed: " ++ e.pyStr))
            (some name) (some 500) Option.none

/-! ## The remote business API consumed by the tool modules -/

/-- A FalconPy response dict as read by the tool modules: the top-level
`status_code` key (absent gives `Option.none`) and the `body` dict. -/
structure ApiResp where
  status_code : Option Int
  body : Value

/-- The remote business endpoints reached through the provider's service
collections, as an oracle: each call may raise or return a response. -/
structure RemoteApi where
  query_devices_by_filter : Dict → Except PyErr ApiResp
  get_device_details : Value → Except PyErr ApiResp
  perform_action : String → Value → Except PyErr ApiResp
  query_detects : Dict → Except PyErr ApiResp
  get_detect_summaries : Value → Except PyErr ApiResp
  update_detects_by_ids : Dict → Except PyErr ApiResp

/-- Python `v in l` for a value tested against a list of strings (only a
string value can compare equal to a string element). -/
def pyStrMember (v : Value) (l : List String) : Bool :=
  match v with
  | .str s => l.contains s
  | _ => false

/-! ## `tools/crowdstrike/hosts.py` -/

namespace hosts

/-- The `try`-block of `_query_devices_by_filter`, before the enclosing
`except` converts exceptions; the second component lists the remote
business calls issued. -/
def queryDevicesBody (api : RemoteApi) (p : ProviderState) (arguments : Dict) :
    Except PyErr Env × List Event :=
  let filter_expr := dget arguments "filter"
  let limit := dgetD arguments "limit" (Value.int 100)
  let offset := dgetD arguments "offset" (Value.int 0)
  let sort := dget arguments "sort"
  let query_params : Dict := [("limit", limit), ("offset", offset)]
  let query_params :=
    if filter_expr.truthy then query_params ++ [("filter", filter_expr)] else query_params
  let query_params :=
    if sort.truthy then query_params ++ [("sort", sort)] else query_params
  match p.hostsHandle with
  | .error e => (.error e, [])
  | .ok _ =>
      match api.query_devices_by_filter query_params with
      | .error e => (.error e, [Event.businessCall "query_devices_by_filter"])
      | .ok resp =>
          if resp.status_code ≠ some 200 then
            (.ok (api_error_response "CrowdStrike Falcon" (resp.status_code.getD 500)
                ((resp.body.getD "errors" (Value.str "Unknown error")).pyStr)
                (some "query_devices_by_filter")),
             [Event.businessCall "query_devices_by_filter"])
          else
            let device_ids := resp.body.getD "resources" (Value.list [])
            match device_ids.pyLen with
            | .error e => (.error e, [Event.businessCall "query_devices_by_filter"])
            | .ok n =>
                let total := ((resp.body.getD "meta" (Value.dict [])).getD "pagination"
                    (Value.dict [])).getD "total" (Value.int n)
                (.ok (success_response (Value.dict [("device_ids", device_ids)])
                    (some (Value.dict [("total", total), ("limit", limit), ("offset", offset)]))),
                 [Event.businessCall "query_devices_by_filter"])

/-- `hosts._query_devices_by_filter` with its exception boundary. -/
def _query_devices_by_filter (api : RemoteApi) (p : ProviderState) (arguments : Dict) :
    Env × List Event :=
  match queryDevicesBody api p arguments with
  | (.ok env, ev) => (env, ev)
  | (.error e, ev) =>
      (error_response (Value.str ("Failed to query devices: " ++ e.pyStr))
        (some "query_devices_by_filter") Option.none Option.none, ev)

/-- The `try`-block of `_get_device_details`. -/
def getDeviceDetailsBody (api : RemoteApi) (p : ProviderState) (arguments : Dict) :
    Except PyErr Env × List Event :=
  let device_ids := dgetD arguments "device_ids" (Value.list [])
  if !device_ids.truthy then
    (.ok (validation_error_response "device_ids" "At least one device ID is required"
      (some "get_device_details")), [])
  else
    match device_ids.pyLen with
    | .error e => (.error e, [])
    | .ok _ =>
        match p.hostsHandle with
        | .error e => (.error e, [])
        | .ok _ =>
            match api.get_device_details device_ids with
            | .error e => (.error e, [Event.businessCall "get_device_details"])
            | .ok resp =>
                if resp.status_code ≠ some 200 then
                  (.ok (api_error_response "CrowdStrike Falcon" (resp.status_code.getD 500)
                      ((resp.body.getD "errors" (Value.str "Unknown error")).pyStr)
                      (some "get_device_details")),
                   [Event.businessCall "get_device_details"])
                else
                  let devices := resp.body.getD "resources" (Value.list [])
                  match devices.pyLen with
                  | .error e => (.error e, [Event.businessCall "get_device_details"])
                  | .ok n =>
                      (.ok (success_response (Value.dict [("devices", devices)])
                          (some (Value.dict [("count", Value.int n)]))),
                       [Event.businessCall "get_device_details"])

/-- `hosts._get_device_details` with its exception boundary. -/
def _get_device_details (api : RemoteApi) (p : ProviderState) (arguments : Dict) :
    Env × List Event :=
  match getDeviceDetailsBody api p arguments with
  | (.ok env, ev) => (env, ev)
  | (.error e, ev) =>
      (error_response (Value.str ("Failed to get device details: " ++ e.pyStr))
        (some "get_device_details") Option.none Option.none, ev)

/-- The `try`-block of `_contain_host`. -/
def containHostBody (api : RemoteApi) (p : ProviderState) (arguments : Dict) :
    Except PyErr Env × List Event :=
  let device_id := dget arguments "device_id"
  if !device_id.truthy then
    (.ok (validation_error_response "device_id" "Device ID is required" (some "contain_host")), [])
  else
    match p.hostsHandle with
    | .error e => (.error e, [])
    | .ok _ =>
        match api.perform_action "contain" (Value.list [device_id]) with
        | .error e => (.error e, [Event.businessCall "perform_action"])
        | .ok resp =>
            if resp.status_code ≠ some 200 ∧ resp.status_code ≠ some 202 then
              (.ok (api_error_response "CrowdStrike Falcon" (resp.status_code.getD 500)
                  ((resp.body.getD "errors" (Value.str "Unknown error")).pyStr)
                  (some "contain_host")),
               [Event.businessCall "perform_action"])
            else
              (.ok (success_response (Value.dict [("device_id", device_id),
                  ("action", Value.str "contained"), ("status", Value.str "success")])
                  Option.none),
               [Event.businessCall "perform_action"])

/-- `hosts._contain_host` with its exception boundary. -/
def _contain_host (api : RemoteApi) (p : ProviderState) (arguments : Dict) :
    Env × List Event :=
  match containHostBody api p arguments with
  | (.ok env, ev) => (env, ev)
  | (.error e, ev) =>
      (error_response (Value.str ("Failed to contain host: " ++ e.pyStr))
        (some "contain_host") Option.none Option.none, ev)

/-- The `try`-block of `_lift_containment`. -/
def liftContainmentBody (api : RemoteApi) (p : ProviderState) (arguments : Dict) :
    Except PyErr Env × List Event :=
  let device_id := dget arguments "device_id"
  if !device_id.truthy then
    (.ok (validation_error_response "device_id" "Device ID is required"
      (some "lift_containment")), [])
  else
    match p.hostsHandle with
    | .error e => (.error e, [])
    | .ok _ =>
        match api.perform_action "lift_containment" (Value.list [device_id]) with
        | .error e => (.error e, [Event.businessCall "perform_action"])
        | .ok resp =>
            if resp.status_code ≠ some 200 ∧ resp.status_code ≠ some 202 then
              (.ok (api_error_response "CrowdStrike Falcon" (resp.status_code.getD 500)
                  ((resp.body.getD "errors" (Value.str "Unknown error")).pyStr)
                  (some "lift_containment")),
               [Event.businessCall "perform_action"])
            else
              (.ok (success_response (Value.dict [("device_id", device_id),
                  ("action", Value.str "containment_lifted"), ("status", Value.str "success")])
                  Option.none),
               [Event.businessCall "perform_action"])

/-- `hosts._lift_containment` with its exception boundary. -/
def _lift_containment (api : RemoteApi) (p : ProviderState) (arguments : Dict) :
    Env × List Event :=
  match liftContainmentBody api p arguments with
  | (.ok env, ev) => (env, ev)
  | (.error e, ev) =>
      (error_response (Value.str ("Failed to lift containment: " ++ e.pyStr))
        (some "lift_containment") Option.none Option.none, ev)

/-- `hosts.execute_tool(provider, tool_name, arguments)`: the module
dispatch function.  `await provider.refresh_token_if_needed()` runs first,
outside any `try` block, so an exception it raises propagates; the
per-tool handlers below it never raise. -/
def execute_tool (settings : Settings) (now : Int) (auth : Option AuthResult)
    (api : RemoteApi) (provider : ProviderState) (tool_name : String) (arguments : Dict) :
    Except PyErr Env × ProviderState × List Event :=
  match refresh_token_if_needed settings now auth provider with
  | (.error e, p1, ev) => (.error e, p1, ev)
  | (.ok _, p1, ev) =>
      if tool_name = "query_devices_by_filter" then
        let out := _query_devices_by_filter api p1 arguments
        (.ok out.1, p1, ev ++ out.2)
      else if tool_name = "get_device_details" then
        let out := _get_device_details api p1 arguments
        (.ok out.1, p1, ev ++ out.2)
      else if tool_name = "contain_host" then
        let out := _contain_host api p1 arguments
        (.ok out.1, p1, ev ++ out.2)
      else if tool_name = "lift_containment" then
        let out := _lift_containment api p1 arguments
        (.ok out.1, p1, ev ++ out.2)
      else
        (.ok (error_response (Value.str ("Unknown tool: " ++ tool_name))
          (some tool_name) Option.none Option.none), p1, ev)

end hosts

/-! ## `tools/crowdstrike/detections.py` -/

namespace detections

/-- `detections.VALID_STATUSES`. -/
def VALID_STATUSES : List String :=
  ["new", "in_progress", "true_positive", "false_positive", "closed", "ignored", "reopened"]

/-- The `try`-block of `_query_detections`. -/
def queryDetectionsBody (api : RemoteApi) (p : ProviderState) (arguments : Dict) :
    Except PyErr Env × List Event :=
  let filter_expr := dget arguments "filter"
  let limit := dgetD arguments "limit" (Value.int 100)
  let offset := dgetD arguments "offset" (Value.int 0)
  let sort := dget arguments "sort"
  let query_params : Dict := [("limit", limit), ("offset", offset)]
  let query_params :=
    if filter_expr.truthy then query_params ++ [("filter", filter_expr)] else query_params
  let query_params :=
    if sort.truthy then query_params ++ [("sort", sort)] else query_params
  match p.detectsHandle with
  | .error e => (.error e, [])
  | .ok _ =>
      match api.query_detects query_params with
      | .error e => (.error e, [Event.businessCall "query_detects"])
      | .ok resp =>
          if resp.status_code ≠ some 200 then
            (.ok (api_error_response "CrowdStrike Falcon" (resp.status_code.getD 500)
                ((resp.body.getD "errors" (Value.str "Unknown error")).pyStr)
                (some "query_detections")),
             [Event.businessCall "query_detects"])
          else
            let detection_ids := resp.body.getD "resources" (Value.list [])
            match detection_ids.pyLen with
            | .error e => (.error e, [Event.businessCall "query_detects"])
            | .ok n =>
                let total := ((resp.body.getD "meta" (Value.dict [])).getD "pagination"
                    (Value.dict [])).getD "total" (Value.int n)
                (.ok (success_response (Value.dict [("detection_ids", detection_ids)])
                    (some (Value.dict [("total", total), ("limit", limit), ("offset", offset)]))),
                 [Event.businessCall "query_detects"])

/-- `detections._query_detections` with its exception boundary. -/
def _query_detections (api : RemoteApi) (p : ProviderState) (arguments : Dict) :
    Env × List Event :=
  match queryDetectionsBody api p arguments with
  | (.ok env, ev) => (env, ev)
  | (.error e, ev) =>
      (error_response (Value.str ("Failed to query detections: " ++ e.pyStr))
        (some "query_detections") Option.none Option.none, ev)

/-- The `try`-block of `_get_detection_details`. -/
def getDetectionDetailsBody (api : RemoteApi) (p : ProviderState) (arguments : Dict) :
    Except PyErr Env × List Event :=
  let detection_ids := dgetD arguments "detection_ids" (Value.list [])
  if !detection_ids.truthy then
    (.ok (validation_error_response "detection_ids" "At least one detection ID is required"
      (some "get_detection_details")), [])
  else
    match detection_ids.pyLen with
    | .error e => (.error e, [])
    | .ok _ =>
        match p.detectsHandle with
        | .error e => (.error e, [])
        | .ok _ =>
            match api.get_detect_summaries detection_ids with
            | .error e => (.error e, [Event.businessCall "get_detect_summaries"])
            | .ok resp =>
                if resp.status_code ≠ some 200 then
                  (.ok (api_error_response "CrowdStrike Falcon" (resp.status_code.getD 500)
                      ((resp.body.getD "errors" (Value.str "Unknown error")).pyStr)
                      (some "get_detection_details")),
                   [Event.businessCall "get_detect_summaries"])
                else
                  let dets := resp.body.getD "resources" (Value.list [])
                  match dets.pyLen with
                  | .error e => (.error e, [Event.businessCall "get_detect_summaries"])
                  | .ok n =>
                      (.ok (success_response (Value.dict [("detections", dets)])
                          (some (Value.dict [("count", Value.int n)]))),
                       [Event.businessCall "get_detect_summaries"])

/-- `detections._get_detection_details` with its exception boundary. -/
def _get_detection_details (api : RemoteApi) (p : ProviderState) (arguments : Dict) :
    Env × List Event :=
  match getDetectionDetailsBody api p arguments with
  | (.ok env, ev) => (env, ev)
  | (.error e, ev) =>
      (error_response (Value.str ("Failed to get detection details: " ++ e.pyStr))
        (some "get_detection_details") Option.none Option.none, ev)

/-- The `try`-block of `_update_detection_status`: validates the ids, the
presence of a status, and membership of the status in `VALID_STATUSES`
(rejection lists the full allowed set) before any remote call. -/
def updateDetectionStatusBody (api : RemoteApi) (p : ProviderState) (arguments : Dict) :
    Except PyErr Env × List Event :=
  let detection_ids := dgetD arguments "detection_ids" (Value.list [])
  let status := dget arguments "status"
  let comment := dget arguments "comment"
  if !detection_ids.truthy then
    (.ok (validation_error_response "detection_ids" "At least one detection ID is required"
      (some "update_detection_status")), [])
  else if !status.truthy then
    (.ok (validation_error_response "status" "Status is required"
      (some "update_detection_status")), [])
  else if !(pyStrMember status VALID_STATUSES) then
    (.ok (validation_error_response "status"
      ("Invalid status. Must be one of: " ++ ", ".intercalate VALID_STATUSES)
      (some "update_detection_status")), [])
  else
    match detection_ids.pyLen with
    | .error e => (.error e, [])
    | .ok n =>
        let update_payload : Dict := [("ids", detection_ids), ("status", status)]
        let update_payload :=
          if comment.truthy then update_payload ++ [("comment", comment)] else update_payload
        match p.detectsHandle with
        | .error e => (.error e, [])
        | .ok _ =>
            match api.update_detects_by_ids update_payload with
            | .error e => (.error e, [Event.businessCall "update_detects_by_ids"])
            | .ok resp =>
                if resp.status_code ≠ some 200 ∧ resp.status_code ≠ some 202 then
                  (.ok (api_error_response "CrowdStrike Falcon" (resp.status_code.getD 500)
                      ((resp.body.getD "errors" (Value.str "Unknown error")).pyStr)
                      (some "update_detection_status")),
                   [Event.businessCall "update_detects_by_ids"])
                else
                  (.ok (success_response (Value.dict [("updated_count", Value.int n),
                      ("detection_ids", detection_ids), ("status", status)]) Option.none),
                   [Event.businessCall "update_detects_by_ids"])

/-- `detections._update_detection_status` with its exception boundary. -/
def _update_detection_status (api : RemoteApi) (p : ProviderState) (arguments : Dict) :
    Env × List Event :=
  match updateDetectionStatusBody api p arguments with
  | (.ok env, ev) => (env, ev)
  | (.error e, ev) =>
      (error_response (Value.str ("Failed to update detection status: " ++ e.pyStr))
        (some "update_detection_status") Option.none Option.none, ev)

/-- `detections.execute_tool(provider, tool_name, arguments)`: like the
hosts module, `refresh_token_if_needed()` runs first and outside any
`try` block. -/
def execute_tool (settings : Settings) (now : Int) (auth : Option AuthResult)
    (api : RemoteApi) (provider : ProviderState) (tool_name : String) (arguments : Dict) :
    Except PyErr Env × ProviderState × List Event :=
  match refresh_token_if_needed settings now auth provider with
  | (.error e, p1, ev) => (.error e, p1, ev)
  | (.ok _, p1, ev) =>
      if tool_name = "query_detections" then
        let out := _query_detections api p1 arguments
        (.ok out.1, p1, ev ++ out.2)
      else if tool_name = "get_detection_details" then
        let out := _get_detection_details api p1 arguments
        (.ok out.1, p1, ev ++ out.2)
      else if tool_name = "update_detection_status" then
        let out := _update_detection_status api p1 arguments
        (.ok out.1, p1, ev ++ out.2)
      else
        (.ok (error_response (Value.str ("Unknown tool: " ++ tool_name))
          (some tool_name) Option.none Option.none), p1, ev)

end detections

/-! ## Helpers for stating the claims -/

/-- Whether a Python call returned normally (no exception). -/
def retOk {α : Type} : Except PyErr α → Bool
  | .ok _ => true
  | .error _ => false

/-- Whether a Python call raised a `ConnectionError`. -/
def raisedConnectionError {α : Type} : Except PyErr α → Bool
  | .error (.connectionError _) => true
  | _ => false

/-- Whether an event is a business remote call (as opposed to the
provider-level revoke/auth calls). -/
def Event.isBusiness : Event → Bool
  | .businessCall _ => true
  | _ => false

/-- The auth exchange outcomes `initialize()` treats as failures: a falsy
response, a non-201 status, or a missing `access_token`. -/
def authFailsB : Option AuthResult → Bool
  | Option.none => true
  | some a => !(a.status_code = some 201 ∧ a.access_token.isSome)

/-- A lookup that succeeds is unaffected by appending entries. -/
theorem alookup_append_of_isSome {α : Type} (l l2 : List (String × α)) (k : String)
    (h : (alookup l k).isSome = true) : alookup (l ++ l2) k = alookup l k := by
  induction l with
  | nil => simp [alookup] at h
  | cons hd tl ih =>
      cases hd with
      | mk k0 v0 =>
          by_cases hk : k0 = k
          · simp [alookup, hk]
          · rw [List.cons_append]
            rw [show alookup ((k0, v0) :: (tl ++ l2)) k = alookup (tl ++ l2) k from by
              simp [alookup, hk]]
            rw [show alookup ((k0, v0) :: tl) k = alookup tl k from by simp [alookup, hk]]
            rw [show alookup ((k0, v0) :: tl) k = alookup tl k from by
              simp [alookup, hk]] at h
            exact ih h

/-! ## Claim theorems -/

/-- C3: for every name absent from the registry and every argument
mapping, `ToolRegistry.execute_tool` returns (rather than raising) an
envelope equal to the 404 error envelope, whose `success` is `false`,
whose `error` is the string `Tool '<name>' not found`, and whose
`status_code` is `404`.  (The embedded `execute_tool` is a total function
into envelopes, so no exception escapes it.) -/
theorem c3_unknown_tool_envelope (r : ToolRegistry) (name : String) (arguments : Dict)
    (h : r.get_tool name = Option.none) :
    r.execute_tool name arguments =
      error_response (Value.str ("Tool " ++ sqt ++ name ++ sqt ++ " not found"))
        (some name) (some 404) Option.none ∧
    dget (r.execute_tool name arguments) "success" = Value.bool false ∧
    dget (r.execute_tool name arguments) "error" =
      Value.str ("Tool " ++ sqt ++ name ++ sqt ++ " not found") ∧
    dget (r.execute_tool name arguments) "status_code" = Value.int 404 := by
  unfold ToolRegistry.execute_tool
  rw [h]
  refine ⟨rfl, ?_, ?_, ?_⟩ <;> simp [error_response, dget, alookup]

/-- Witness for C3 on a concrete empty registry and the name
`does_not_exist`. -/
theorem c3_unknown_tool_envelope_witness :
    ({ provider := freshProvider, tools := [] } : ToolRegistry).execute_tool
        "does_not_exist" [] =
      error_response (Value.str ("Tool " ++ sqt ++ "does_not_exist" ++ sqt ++ " not found"))
        (some "does_not_exist") (some 404) Option.none ∧
    dget (({ provider := freshProvider, tools := [] } : ToolRegistry).execute_tool
        "does_not_exist" []) "success" = Value.bool false ∧
    dget (({ provider := freshProvider, tools := [] } : ToolRegistry).execute_tool
        "does_not_exist" []) "error" =
      Value.str ("Tool " ++ sqt ++ "does_not_exist" ++ sqt ++ " not found") ∧
    dget (({ provider := freshProvider, tools := [] } : ToolRegistry).execute_tool
        "does_not_exist" []) "status_code" = Value.int 404 :=
  c3_unknown_tool_envelope { provider := freshProvider, tools := [] } "does_not_exist" [] rfl

/-- C4: for every registered tool and every argument mapping, a handler
exception with message `m` is converted by `ToolRegistry.execute_tool`
into the `success=false`, `Tool execution failed: <m>`, `status_code=500`
envelope (never propagated), and a handler return value is passed through
unchanged. -/
theorem c4_execution_boundary (r : ToolRegistry) (name : String) (arguments : Dict)
    (tool : Tool) (h : r.get_tool name = some tool) :
    (∀ e : PyErr, tool.handler name arguments = .error e →
      r.execute_tool name arguments =
        error_response (Value.str ("Tool execution failed: " ++ e.pyStr))
          (some name) (some 500) Option.none) ∧
    (∀ env : Env, tool.handler name arguments = .ok env →
      r.execute_tool name arguments = env) := by
  constructor
  · intro e he
    simp [ToolRegistry.execute_tool, h, he]
  · intro env he
    simp [ToolRegistry.execute_tool, h, he]

/-- A concrete tool whose handler always raises `ValueError("boom")`. -/
def raisingTool : Tool :=
  { name := "t", description := "d", input_schema := Value.dict [],
    handler := fun _ _ => .error (.valueError "boom") }

/-- A concrete one-tool registry for the C4 witness. -/
def raisingRegistry : ToolRegistry :=
  { provider := freshProvider, tools := [("t", raisingTool)] }

/-- Witness for C4: the raising handler's exception is converted to the
500 envelope. -/
theorem c4_execution_boundary_witness :
    raisingRegistry.execute_tool "t" [] =
      error_response (Value.str ("Tool execution failed: " ++ (PyErr.valueError "boom").pyStr))
        (some "t") (some 500) Option.none :=
  (c4_execution_boundary raisingRegistry "t" [] raisingTool rfl).1
    (.valueError "boom") rfl

/-- C5: calling `initialize()` on an already-initialized (READY) provider
returns without issuing an auth exchange and leaves every session field
unchanged: the call is a no-op apart from the logged warning. -/
theorem c5_reinit_noop (settings : Settings) (now : Int) (auth : Option AuthResult)
    (s : ProviderState) (h : s.initialized = true) :
    initProvider settings now auth s = (.ok (), s, []) := by
  unfold initProvider
  simp [h]

/-- A concrete READY provider state used by several witnesses. -/
def readyProvider : ProviderState :=
  { oauth2 := some { client_id := "id", client_secret := "sec", base_url := "https://api" },
    hosts := some { access_token := "tok", base_url := "https://api" },
    detects := some { access_token := "tok", base_url := "https://api" },
    incidents := some { access_token := "tok", base_url := "https://api" },
    token_expiry := 1000, initialized := true }

/-- A concrete settings value used by witnesses. -/
def settings0 : Settings :=
  { falcon_client_id := "id", falcon_client_secret := "sec", falcon_base_url := "https://api" }

/-- Witness for C5 at a concrete READY state. -/
theorem c5_reinit_noop_witness :
    initProvider settings0 500 Option.none readyProvider = (.ok (), readyProvider, []) :=
  c5_reinit_noop settings0 500 Option.none readyProvider rfl

/-- C6: registering a tool whose name is already present fails with the
duplicate-registration error (Python `ValueError`, the spec's
`DuplicateToolError`), and the registry — in particular the mapping for
that name — is exactly what it was before the failed call. -/
theorem c6_duplicate_registration (r : ToolRegistry) (tool : Tool)
    (h : (r.get_tool tool.name).isSome = true) :
    r.register_tool tool =
      (.error (.valueError ("Tool " ++ sqt ++ tool.name ++ sqt ++ " is already registered")), r) ∧
    (r.register_tool tool).2.get_tool tool.name = r.get_tool tool.name := by
  constructor
  · unfold ToolRegistry.register_tool
    simp [h]
  · unfold ToolRegistry.register_tool
    simp [h]

/-- Witness for C6: re-registering the tool named `t` in the concrete
one-tool registry fails and leaves the registry unchanged. -/
theorem c6_duplicate_registration_witness :
    raisingRegistry.register_tool raisingTool =
      (.error (.valueError ("Tool " ++ sqt ++ "t" ++ sqt ++ " is already registered")),
       raisingRegistry) ∧
    (raisingRegistry.register_tool raisingTool).2.get_tool "t" =
      raisingRegistry.get_tool "t" :=
  c6_duplicate_registration raisingRegistry raisingTool rfl

/-- C7: every envelope produced by the four envelope constructors has
exactly one of the keys `data` (present with `success=true`) and `error`
(present with `success=false`): never both, never neither. -/
theorem c7_envelope_totality :
    (∀ (data : Value) (metadata : Option Value),
      dget (success_response data metadata) "success" = Value.bool true ∧
      hasKey (success_response data metadata) "data" = true ∧
      hasKey (success_response data metadata) "error" = false) ∧
    (∀ (error : Value) (tool_name : Option String) (status_code : Option Int)
        (details : Option Value),
      dget (error_response error tool_name status_code details) "success" = Value.bool false ∧
      hasKey (error_response error tool_name status_code details) "error" = true ∧
      hasKey (error_response error tool_name status_code details) "data" = false) ∧
    (∀ (field message : String) (tool_name : Option String),
      dget (validation_error_response field message tool_name) "success" = Value.bool false ∧
      hasKey (validation_error_response field message tool_name) "error" = true ∧
      hasKey (validation_error_response field message tool_name) "data" = false) ∧
    (∀ (api_name : String) (status_code : Int) (message : String) (tool_name : Option String),
      dget (api_error_response api_name status_code message tool_name) "success" =
        Value.bool false ∧
      hasKey (api_error_response api_name status_code message tool_name) "error" = true ∧
      hasKey (api_error_response api_name status_code message tool_name) "data" = false) := by
  refine ⟨?_, ?_, ?_, ?_⟩
  · intro data metadata
    cases metadata <;> simp [success_response, dget, hasKey, alookup]
  · intro error tool_name status_code details
    cases tool_name <;> cases status_code <;> cases details <;>
      simp [error_response, dget, hasKey, alookup]
  · intro field message tool_name
    cases tool_name <;>
      simp [validation_error_response, error_response, dget, hasKey, alookup]
  · intro api_name status_code message tool_name
    cases tool_name <;>
      simp [api_error_response, error_response, dget, hasKey, alookup]

/-- A concrete failed auth exchange: HTTP 400, no token. -/
def authFail400 : AuthResult :=
  { status_code := some 400, expires_in := Option.none, access_token := Option.none,
    errors := some ["access denied"] }

/-- A concrete successful auth exchange: status 201, 1800s ttl, a token. -/
def authOk : AuthResult :=
  { status_code := some 201, expires_in := some 1800, access_token := some "tok2",
    errors := Option.none }

/-- A concrete remote API stub answering 200 with an empty body. -/
def stubApi : RemoteApi :=
  { query_devices_by_filter := fun _ => .ok { status_code := some 200, body := Value.dict [] },
    get_device_details := fun _ => .ok { status_code := some 200, body := Value.dict [] },
    perform_action := fun _ _ => .ok { status_code := some 200, body := Value.dict [] },
    query_detects := fun _ => .ok { status_code := some 200, body := Value.dict [] },
    get_detect_summaries := fun _ => .ok { status_code := some 200, body := Value.dict [] },
    update_detects_by_ids := fun _ => .ok { status_code := some 200, body := Value.dict [] } }

/-- C2 counterexample: calling `initialize()` from the uninitialized state
with a failing auth exchange (status 400) leaves the OAuth2 handle set in
the provider state, so a partial session IS left live, contrary to the
claim that no session field remains set. -/
theorem c2_counterexample :
    (initProvider settings0 1000 (some authFail400) freshProvider).2.1.oauth2 =
      some (mkOAuth2 settings0) ∧
    (initProvider settings0 1000 (some authFail400) freshProvider).2.1.oauth2 ≠
      Option.none := by
  refine ⟨rfl, ?_⟩
  rw [show (initProvider settings0 1000 (some authFail400) freshProvider).2.1.oauth2 =
    some (mkOAuth2 settings0) from rfl]
  simp

/-- C2 (amended): when the auth exchange fails (falsy response, non-201
status, or missing token), `initialize()` raises (a `ConnectionError`
wrapping the authentication failure — the spec's `AuthenticationError`
role), the initialized flag stays `false` and no service handles are set,
but the `OAuth2` handle created before the exchange remains set (and, in
the missing-token case, the token expiry too): the state is not fully
clean. -/
theorem c2_init_failure_partial_session (settings : Settings) (now : Int)
    (auth : Option AuthResult) (s : ProviderState)
    (hinit : s.initialized = false) (hh : s.hosts = Option.none)
    (hd : s.detects = Option.none) (hi : s.incidents = Option.none)
    (hfail : authFailsB auth = true) :
    raisedConnectionError (initProvider settings now auth s).1 = true ∧
    (initProvider settings now auth s).2.1.initialized = false ∧
    (initProvider settings now auth s).2.1.hosts = Option.none ∧
    (initProvider settings now auth s).2.1.detects = Option.none ∧
    (initProvider settings now auth s).2.1.incidents = Option.none ∧
    (initProvider settings now auth s).2.1.oauth2 = some (mkOAuth2 settings) := by
  cases auth with
  | none =>
      unfold initProvider
      simp [hinit, raisedConnectionError, hh, hd, hi]
  | some a =>
      by_cases h201 : a.status_code = some 201
      · cases htok : a.access_token with
        | none =>
            unfold initProvider
            simp [hinit, h201, htok, raisedConnectionError, hh, hd, hi]
        | some t =>
            exfalso
            simp [authFailsB, h201, htok] at hfail
      · unfold initProvider
        simp [hinit, h201, raisedConnectionError, hh, hd, hi]

/-- Witness for C2's amended statement at the concrete failing exchange. -/
theorem c2_init_failure_partial_session_witness :
    raisedConnectionError (initProvider settings0 1000 (some authFail400) freshProvider).1 =
      true ∧
    (initProvider settings0 1000 (some authFail400) freshProvider).2.1.initialized = false ∧
    (initProvider settings0 1000 (some authFail400) freshProvider).2.1.hosts = Option.none ∧
    (initProvider settings0 1000 (some authFail400) freshProvider).2.1.detects = Option.none ∧
    (initProvider settings0 1000 (some authFail400) freshProvider).2.1.incidents =
      Option.none ∧
    (initProvider settings0 1000 (some authFail400) freshProvider).2.1.oauth2 =
      some (mkOAuth2 settings0) :=
  c2_init_failure_partial_session settings0 1000 (some authFail400) freshProvider
    rfl rfl rfl rfl rfl

/-- C9: with a non-empty `detection_ids` list and a non-empty string
status outside `VALID_STATUSES`, `_update_detection_status` returns the
validation-error envelope whose details message lists the full valid
status set, with `success=false`, and issues no remote call (the event
trace is empty). -/
theorem c9_invalid_status_rejected (api : RemoteApi) (p : ProviderState) (arguments : Dict)
    (ids : List Value) (st : String)
    (hids : alookup arguments "detection_ids" = some (Value.list ids))
    (hne : ids ≠ [])
    (hst : alookup arguments "status" = some (Value.str st))
    (hstne : st ≠ "")
    (hnotin : st ∉ detections.VALID_STATUSES) :
    detections._update_detection_status api p arguments =
      (validation_error_response "status"
        ("Invalid status. Must be one of: " ++ ", ".intercalate detections.VALID_STATUSES)
        (some "update_detection_status"), []) ∧
    dget (detections._update_detection_status api p arguments).1 "success" =
      Value.bool false ∧
    (detections._update_detection_status api p arguments).2 = [] := by
  have h1 : (Value.list ids).truthy = true := by
    simp [Value.truthy, hne]
  have h2 : (Value.str st).truthy = true := by
    simp [Value.truthy, hstne]
  have h3 : pyStrMember (Value.str st) detections.VALID_STATUSES = false := by
    simp [pyStrMember, hnotin]
  have hmain : detections.updateDetectionStatusBody api p arguments =
      (.ok (validation_error_response "status"
        ("Invalid status. Must be one of: " ++ ", ".intercalate detections.VALID_STATUSES)
        (some "update_detection_status")), []) := by
    unfold detections.updateDetectionStatusBody
    simp [dgetD, dget, hids, hst, h1, h2, h3]
  refine ⟨?_, ?_, ?_⟩
  · unfold detections._update_detection_status
    rw [hmain]
  · unfold detections._update_detection_status
    rw [hmain]
    simp [validation_error_response, error_response, dget, alookup]
  · unfold detections._update_detection_status
    rw [hmain]

/-- Witness for C9: `update_detection_status({detection_ids:["x"],
status:"bogus"})` on a concrete provider and stub API. -/
theorem c9_invalid_status_rejected_witness :
    detections._update_detection_status stubApi readyProvider
        [("detection_ids", Value.list [Value.str "x"]), ("status", Value.str "bogus")] =
      (validation_error_response "status"
        ("Invalid status. Must be one of: " ++ ", ".intercalate detections.VALID_STATUSES)
        (some "update_detection_status"), []) ∧
    dget (detections._update_detection_status stubApi readyProvider
        [("detection_ids", Value.list [Value.str "x"]), ("status", Value.str "bogus")]).1
        "success" = Value.bool false ∧
    (detections._update_detection_status stubApi readyProvider
        [("detection_ids", Value.list [Value.str "x"]), ("status", Value.str "bogus")]).2 =
      [] :=
  c9_invalid_status_rejected stubApi readyProvider
    [("detection_ids", Value.list [Value.str "x"]), ("status", Value.str "bogus")]
    [Value.str "x"] "bogus" rfl (by simp) rfl (by simp) (by decide)

/-- Appending a fresh binding makes it visible to lookup. -/
theorem alookup_append_single_of_none {α : Type} (l : List (String × α)) (k : String) (v : α)
    (h : alookup l k = Option.none) : alookup (l ++ [(k, v)]) k = some v := by
  induction l with
  | nil => simp [alookup]
  | cons hd tl ih =>
      cases hd with
      | mk k0 v0 =>
          by_cases hk : k0 = k
          · simp [alookup, hk] at h
          · simp only [List.cons_append, alookup, if_neg hk] at h ⊢
            exact ih h

/-- C10: `register_module` is not atomic.  The registration loop treats
the descriptor list one element at a time — a fresh name is inserted
(with the module dispatch bound as handler) before the rest is processed,
and a duplicate name stops the loop with the duplicate-registration error
and the registry as accumulated so far — so on a list whose second
element reuses the first element's name, the error propagates out of
`register_module` while the first descriptor remains registered. -/
theorem c10_register_module_not_atomic (r : ToolRegistry)
    (f : ProviderState → String → Dict → Except PyErr Env)
    (t1 t2 : Tool) (h1 : r.get_tool t1.name = Option.none) (h2 : t2.name = t1.name) :
    (r.register_module (fun _ => [t1, t2]) f).1 =
      .error (.valueError ("Tool " ++ sqt ++ t2.name ++ sqt ++ " is already registered")) ∧
    ((r.register_module (fun _ => [t1, t2]) f).2.get_tool t1.name).isSome = true ∧
    (∀ (r0 : ToolRegistry) (t : Tool) (rest : List Tool),
      (r0.get_tool t.name).isSome = true →
      registerLoop f r0 (t :: rest) =
        (.error (.valueError ("Tool " ++ sqt ++ t.name ++ sqt ++ " is already registered")),
         r0)) ∧
    (∀ (r0 : ToolRegistry) (t : Tool) (rest : List Tool),
      r0.get_tool t.name = Option.none →
      registerLoop f r0 (t :: rest) =
        registerLoop f
          { r0 with tools := r0.tools ++
              [(t.name, { t with handler := fun name args => f r0.provider name args })] }
          rest) := by
  have hstep : ∀ (r0 : ToolRegistry) (t : Tool) (rest : List Tool),
      (r0.get_tool t.name).isSome = true →
      registerLoop f r0 (t :: rest) =
        (.error (.valueError ("Tool " ++ sqt ++ t.name ++ sqt ++ " is already registered")),
         r0) := by
    intro r0 t rest h
    unfold registerLoop ToolRegistry.register_tool
    simp [h]
  have hfresh : ∀ (r0 : ToolRegistry) (t : Tool) (rest : List Tool),
      r0.get_tool t.name = Option.none →
      registerLoop f r0 (t :: rest) =
        registerLoop f
          { r0 with tools := r0.tools ++
              [(t.name, { t with handler := fun name args => f r0.provider name args })] }
          rest := by
    intro r0 t rest h
    conv_lhs => simp only [registerLoop]
    simp [ToolRegistry.register_tool, h]
  have hr1 : ∀ x : Tool,
      alookup (r.tools ++ [(t1.name, x)]) t1.name = some x :=
    fun x => alookup_append_single_of_none r.tools t1.name x h1
  have hdup : ∀ x : Tool,
      (({ provider := r.provider, tools := r.tools ++ [(t1.name, x)] } :
          ToolRegistry).get_tool t2.name).isSome = true := by
    intro x
    simp [ToolRegistry.get_tool, h2, hr1 x]
  refine ⟨?_, ?_, hstep, hfresh⟩
  · unfold ToolRegistry.register_module
    rw [hfresh r t1 [t2] h1, hstep _ t2 [] (hdup _)]
  · unfold ToolRegistry.register_module
    rw [hfresh r t1 [t2] h1, hstep _ t2 [] (hdup _)]
    simp [ToolRegistry.get_tool, hr1]

/-- A second concrete tool with the same name `t`, for the C10 witness. -/
def raisingTool2 : Tool :=
  { name := "t", description := "d2", input_schema := Value.dict [],
    handler := fun _ _ => .error (.valueError "boom2") }

/-- A trivial module dispatch function for the C10 witness. -/
def stubDispatch : ProviderState → String → Dict → Except PyErr Env :=
  fun _ _ _ => .ok (success_response (Value.dict []) Option.none)

/-- Witness for C10: registering the two same-named tools into an empty
registry raises the duplicate error while keeping the first tool. -/
theorem c10_register_module_not_atomic_witness :
    (({ provider := freshProvider, tools := [] } : ToolRegistry).register_module
        (fun _ => [raisingTool, raisingTool2]) stubDispatch).1 =
      .error (.valueError ("Tool " ++ sqt ++ "t" ++ sqt ++ " is already registered")) ∧
    ((({ provider := freshProvider, tools := [] } : ToolRegistry).register_module
        (fun _ => [raisingTool, raisingTool2]) stubDispatch).2.get_tool "t").isSome =
      true := by
  have h := c10_register_module_not_atomic
    { provider := freshProvider, tools := [] } stubDispatch raisingTool raisingTool2 rfl rfl
  exact ⟨h.1, h.2.1⟩

/-- From a not-yet-initialized state, `initialize()` issues exactly one
auth exchange, whatever its outcome. -/
theorem initProvider_events (settings : Settings) (now : Int) (auth : Option AuthResult)
    (s : ProviderState) (h : s.initialized = false) :
    (initProvider settings now auth s).2.2 = [Event.authCall] := by
  unfold initProvider
  cases auth with
  | none => simp [h]
  | some a =>
      by_cases h201 : a.status_code = some 201
      · cases htok : a.access_token with
        | none => simp [h, h201, htok]
        | some t => simp [h, h201, htok]
      · simp [h, h201]

/-- An expired refresh on a provider holding an OAuth2 handle issues
exactly the revoke of its shutdown followed by the auth exchange of its
re-initialization. -/
theorem refresh_expired_events (settings : Settings) (now : Int) (auth : Option AuthResult)
    (s : ProviderState) (hexp : s.token_expiry ≤ now) (ho : s.oauth2.isSome = true) :
    (refresh_token_if_needed settings now auth s).2.2 =
      [Event.revokeCall, Event.authCall] := by
  unfold refresh_token_if_needed
  rw [if_pos hexp]
  have h1 : (shutdown s).2.2 = [Event.revokeCall] := by
    cases h : s.oauth2 with
    | none => rw [h] at ho; simp at ho
    | some x => simp [shutdown, h]
  have h2 : ((shutdown s).2.1).initialized = false := rfl
  show (shutdown s).2.2 ++ (initProvider settings now auth (shutdown s).2.1).2.2 =
    [Event.revokeCall, Event.authCall]
  rw [h1, initProvider_events settings now auth _ h2]
  rfl

/-- The exception boundary of a handler forwards the event trace of its
body unchanged (query_devices_by_filter). -/
theorem qdbf_events_eq (api : RemoteApi) (p : ProviderState) (a : Dict) :
    (hosts._query_devices_by_filter api p a).2 = (hosts.queryDevicesBody api p a).2 := by
  unfold hosts._query_devices_by_filter
  rcases h : hosts.queryDevicesBody api p a with ⟨res, ev⟩
  cases res <;> rfl

/-- The exception boundary forwards the trace (get_device_details). -/
theorem gdd_events_eq (api : RemoteApi) (p : ProviderState) (a : Dict) :
    (hosts._get_device_details api p a).2 = (hosts.getDeviceDetailsBody api p a).2 := by
  unfold hosts._get_device_details
  rcases h : hosts.getDeviceDetailsBody api p a with ⟨res, ev⟩
  cases res <;> rfl

/-- The exception boundary forwards the trace (contain_host). -/
theorem contain_events_eq (api : RemoteApi) (p : ProviderState) (a : Dict) :
    (hosts._contain_host api p a).2 = (hosts.containHostBody api p a).2 := by
  unfold hosts._contain_host
  rcases h : hosts.containHostBody api p a with ⟨res, ev⟩
  cases res <;> rfl

/-- The exception boundary forwards the trace (lift_containment). -/
theorem lift_events_eq (api : RemoteApi) (p : ProviderState) (a : Dict) :
    (hosts._lift_containment api p a).2 = (hosts.liftContainmentBody api p a).2 := by
  unfold hosts._lift_containment
  rcases h : hosts.liftContainmentBody api p a with ⟨res, ev⟩
  cases res <;> rfl

/-- The query_devices_by_filter body emits only business calls. -/
theorem qdbfBody_business (api : RemoteApi) (p : ProviderState) (a : Dict) :
    (hosts.queryDevicesBody api p a).2.all Event.isBusiness = true := by
  unfold hosts.queryDevicesBody
  dsimp only
  repeat' split
  all_goals rfl

/-- The get_device_details body emits only business calls. -/
theorem gddBody_business (api : RemoteApi) (p : ProviderState) (a : Dict) :
    (hosts.getDeviceDetailsBody api p a).2.all Event.isBusiness = true := by
  unfold hosts.getDeviceDetailsBody
  dsimp only
  repeat' split
  all_goals rfl

/-- The contain_host body emits only business calls. -/
theorem containBody_business (api : RemoteApi) (p : ProviderState) (a : Dict) :
    (hosts.containHostBody api p a).2.all Event.isBusiness = true := by
  unfold hosts.containHostBody
  dsimp only
  repeat' split
  all_goals rfl

/-- The lift_containment body emits only business calls. -/
theorem liftBody_business (api : RemoteApi) (p : ProviderState) (a : Dict) :
    (hosts.liftContainmentBody api p a).2.all Event.isBusiness = true := by
  unfold hosts.liftContainmentBody
  dsimp only
  repeat' split
  all_goals rfl

/-- Every event emitted by a hosts per-tool handler is a business remote
call (the handlers never revoke or re-authenticate themselves). -/
theorem hosts_events_business (api : RemoteApi) (p : ProviderState) (a : Dict) :
    (∀ e ∈ (hosts._query_devices_by_filter api p a).2, e.isBusiness = true) ∧
    (∀ e ∈ (hosts._get_device_details api p a).2, e.isBusiness = true) ∧
    (∀ e ∈ (hosts._contain_host api p a).2, e.isBusiness = true) ∧
    (∀ e ∈ (hosts._lift_containment api p a).2, e.isBusiness = true) := by
  refine ⟨?_, ?_, ?_, ?_⟩
  · rw [qdbf_events_eq]
    have h := qdbfBody_business api p a
    simpa [List.all_eq_true] using h
  · rw [gdd_events_eq]
    have h := gddBody_business api p a
    simpa [List.all_eq_true] using h
  · rw [contain_events_eq]
    have h := containBody_business api p a
    simpa [List.all_eq_true] using h
  · rw [lift_events_eq]
    have h := liftBody_business api p a
    simpa [List.all_eq_true] using h

/-- C1: with `now` at or past the stored expiry, `refresh_token_if_needed`
performs exactly one full shutdown followed by one re-initialize (no
incremental refresh), observable as the revoke call then the auth
exchange; a hosts tool invocation in that situation has an event trace
that starts with exactly that one cycle, everything after it being
business remote calls — so the cycle completes before the business call
is issued; and with `now` strictly before the expiry the refresh returns
with the provider state unchanged and no provider-level calls. -/
theorem c1_refresh_full_cycle (settings : Settings) (now : Int) (auth : Option AuthResult)
    (s : ProviderState) (api : RemoteApi) (tool_name : String) (arguments : Dict)
    (hexp : s.token_expiry ≤ now) (ho : s.oauth2.isSome = true) :
    refresh_token_if_needed settings now auth s =
      ((initProvider settings now auth (shutdown s).2.1).1,
       (initProvider settings now auth (shutdown s).2.1).2.1,
       (shutdown s).2.2 ++ (initProvider settings now auth (shutdown s).2.1).2.2) ∧
    (refresh_token_if_needed settings now auth s).2.2 =
      [Event.revokeCall, Event.authCall] ∧
    (hosts.execute_tool settings now auth api s tool_name arguments).2.2.take 2 =
      [Event.revokeCall, Event.authCall] ∧
    (∀ e ∈ (hosts.execute_tool settings now auth api s tool_name arguments).2.2.drop 2,
      e.isBusiness = true) ∧
    (∀ now2 : Int, now2 < s.token_expiry →
      refresh_token_if_needed settings now2 auth s = (.ok (), s, [])) := by
  have hev := refresh_expired_events settings now auth s hexp ho
  have htrace : ∀ rest : List Event,
      (∀ e ∈ rest, e.isBusiness = true) →
      ∀ l : List Event, l = Event.revokeCall :: Event.authCall :: rest →
      l.take 2 = [Event.revokeCall, Event.authCall] ∧
        ∀ e ∈ l.drop 2, e.isBusiness = true := by
    intro rest hb l hl
    subst hl
    exact ⟨rfl, hb⟩
  have hmain : ∃ rest : List Event,
      (∀ e ∈ rest, e.isBusiness = true) ∧
      (hosts.execute_tool settings now auth api s tool_name arguments).2.2 =
        Event.revokeCall :: Event.authCall :: rest := by
    unfold hosts.execute_tool
    rcases hr : refresh_token_if_needed settings now auth s with ⟨res, p1, ev⟩
    have hev' : ev = [Event.revokeCall, Event.authCall] := by
      rw [hr] at hev
      exact hev
    subst hev'
    have hbus := hosts_events_business api p1 arguments
    cases res with
    | error e =>
        exact ⟨[], by intro e he; simp at he, rfl⟩
    | ok u =>
        by_cases h1 : tool_name = "query_devices_by_filter"
        · refine ⟨(hosts._query_devices_by_filter api p1 arguments).2, hbus.1, ?_⟩
          simp [h1]
        · by_cases h2 : tool_name = "get_device_details"
          · refine ⟨(hosts._get_device_details api p1 arguments).2, hbus.2.1, ?_⟩
            simp [h1, h2]
          · by_cases h3 : tool_name = "contain_host"
            · refine ⟨(hosts._contain_host api p1 arguments).2, hbus.2.2.1, ?_⟩
              simp [h1, h2, h3]
            · by_cases h4 : tool_name = "lift_containment"
              · refine ⟨(hosts._lift_containment api p1 arguments).2, hbus.2.2.2, ?_⟩
                simp [h1, h2, h3, h4]
              · refine ⟨[], by intro e he; simp at he, ?_⟩
                simp [h1, h2, h3, h4]
  obtain ⟨rest, hb, hl⟩ := hmain
  refine ⟨?_, hev, (htrace rest hb _ hl).1, (htrace rest hb _ hl).2, ?_⟩
  · unfold refresh_token_if_needed
    rw [if_pos hexp]
  · intro now2 h2
    unfold refresh_token_if_needed
    rw [if_neg (by omega)]

/-- Witness for C1: a concrete expired provider, successful re-auth, and
concrete hosts invocation. -/
theorem c1_refresh_full_cycle_witness :
    refresh_token_if_needed settings0 2000 (some authOk) readyProvider =
      ((initProvider settings0 2000 (some authOk) (shutdown readyProvider).2.1).1,
       (initProvider settings0 2000 (some authOk) (shutdown readyProvider).2.1).2.1,
       (shutdown readyProvider).2.2 ++
         (initProvider settings0 2000 (some authOk) (shutdown readyProvider).2.1).2.2) ∧
    (refresh_token_if_needed settings0 2000 (some authOk) readyProvider).2.2 =
      [Event.revokeCall, Event.authCall] ∧
    (hosts.execute_tool settings0 2000 (some authOk) stubApi readyProvider
        "query_devices_by_filter" []).2.2.take 2 =
      [Event.revokeCall, Event.authCall] ∧
    (∀ e ∈ (hosts.execute_tool settings0 2000 (some authOk) stubApi readyProvider
        "query_devices_by_filter" []).2.2.drop 2, e.isBusiness = true) ∧
    (∀ now2 : Int, now2 < readyProvider.token_expiry →
      refresh_token_if_needed settings0 now2 (some authOk) readyProvider =
        (.ok (), readyProvider, [])) :=
  c1_refresh_full_cycle settings0 2000 (some authOk) readyProvider stubApi
    "query_devices_by_filter" [] (by decide) rfl

/-- C8 (amended): exceptions raised inside a per-tool handler body
(steps 2-6 of the dispatch pattern) are caught locally and converted into
an error envelope naming the tool, and once the initial refresh has
returned, neither module dispatch function ever raises; but the step-1
`refresh_token_if_needed()` call sits outside the `try` blocks in both
`hosts.execute_tool` and `detections.execute_tool`, so an exception it
raises propagates out of the dispatch function to the Registry boundary
instead of being converted locally. -/
theorem c8_dispatch_exception_boundary (settings : Settings) (now : Int)
    (auth : Option AuthResult) (api : RemoteApi) (p : ProviderState)
    (tool_name : String) (arguments : Dict) :
    (∀ (e : PyErr) (p1 : ProviderState) (ev : List Event),
      refresh_token_if_needed settings now auth p = (.error e, p1, ev) →
      hosts.execute_tool settings now auth api p tool_name arguments = (.error e, p1, ev) ∧
      detections.execute_tool settings now auth api p tool_name arguments =
        (.error e, p1, ev)) ∧
    (∀ (u : Unit) (p1 : ProviderState) (ev : List Event),
      refresh_token_if_needed settings now auth p = (.ok u, p1, ev) →
      retOk (hosts.execute_tool settings now auth api p tool_name arguments).1 = true ∧
      retOk (detections.execute_tool settings now auth api p tool_name arguments).1 =
        true) ∧
    (∀ (e : PyErr) (ev : List Event),
      hosts.queryDevicesBody api p arguments = (.error e, ev) →
      hosts._query_devices_by_filter api p arguments =
        (error_response (Value.str ("Failed to query devices: " ++ e.pyStr))
          (some "query_devices_by_filter") Option.none Option.none, ev)) ∧
    (∀ (e : PyErr) (ev : List Event),
      detections.updateDetectionStatusBody api p arguments = (.error e, ev) →
      detections._update_detection_status api p arguments =
        (error_response (Value.str ("Failed to update detection status: " ++ e.pyStr))
          (some "update_detection_status") Option.none Option.none, ev)) := by
  refine ⟨?_, ?_, ?_, ?_⟩
  · intro e p1 ev hr
    constructor
    · unfold hosts.execute_tool
      rw [hr]
    · unfold detections.execute_tool
      rw [hr]
  · intro u p1 ev hr
    constructor
    · unfold hosts.execute_tool
      rw [hr]
      dsimp only
      repeat' split
      all_goals rfl
    · unfold detections.execute_tool
      rw [hr]
      dsimp only
      repeat' split
      all_goals rfl
  · intro e ev hb
    unfold hosts._query_devices_by_filter
    rw [hb]
  · intro e ev hb
    unfold detections._update_detection_status
    rw [hb]

/-- C8 counterexample: with an expired token and a failing re-auth, the
exception raised by the step-1 `refresh_token_if_needed()` call escapes
`hosts.execute_tool` uncaught — the module dispatch function DOES
propagate a raw exception to the Registry, contrary to the claim. -/
theorem c8_counterexample :
    retOk (hosts.execute_tool settings0 2000 (some authFail400) stubApi readyProvider
        "query_devices_by_filter" []).1 = false ∧
    raisedConnectionError (hosts.execute_tool settings0 2000 (some authFail400) stubApi
        readyProvider "query_devices_by_filter" []).1 = true := by
  constructor <;> rfl

/-- Witness for C8's amended statement: an unexpired provider (refresh
returns normally), after which both dispatch functions return envelopes
rather than raising. -/
theorem c8_dispatch_exception_boundary_witness :
    retOk (hosts.execute_tool settings0 500 Option.none stubApi readyProvider
        "query_devices_by_filter" []).1 = true ∧
    retOk (detections.execute_tool settings0 500 Option.none stubApi readyProvider
        "query_devices_by_filter" []).1 = true :=
  (c8_dispatch_exception_boundary settings0 500 Option.none stubApi readyProvider
      "query_devices_by_filter" []).2.1 () readyProvider [] rfl
